import Mathlib

/-!
Verification of the job-lifecycle behavior of `api_standalone.py` (the entry
point imported by `main.py`): the file-backed Job Store, the status/artifact
HTTP endpoints, and the asynchronous job runner
(`generate_video_async` / `generate_simple_video`).

Modelling conventions:
* JSON values are modelled by the inductive `JVal`; Python truthiness of a
  parsed JSON value is `truthy`.
* A job's status file on disk is modelled by `Option RawFile`: `none` when
  the file does not exist, `some .unreadable` when opening/reading it raises,
  `some .malformed` when `json.load` raises, and `some (.jsonVal v)` when it
  parses to `v`.
* Each status write performed through `update_progress`/`save_status` is one
  `StatusRecord`; a job's execution is abstracted as the list of records
  written for it, in order (the Job Store keeps only the latest, but the
  claims quantify over the written sequence).
* The Render Backend (moviepy / PIL) is opaque; `RenderEnv` carries the
  observables the code branches on: whether the output file exists after the
  write attempts, its size, and the message of a backend exception if one is
  raised.
-/

namespace AdhdStoryGen

/-- The four job states named by the data model. `api_standalone.py` passes
these as the `status` string of `update_progress`. -/
inductive JobStatus
  | queued
  | generating
  | ready
  | failed
deriving DecidableEq

/-- One status record as built by `update_progress` and serialized by
`save_status`: keys `status`, `progress`, `error`, `videoUrl`. -/
structure StatusRecord where
  status : JobStatus
  progress : Int
  error : Option String
  videoUrl : Option String
deriving DecidableEq

/-- `update_progress(video_id, progress, status, error)`: builds the status
dict; `videoUrl` is `/video/{video_id}` when the status is `ready`, else
`None`. -/
def update_progress (video_id : String) (progress : Int) (status : JobStatus)
    (error : Option String) : StatusRecord :=
  { status := status
    progress := progress
    error := error
    videoUrl := if status = JobStatus.ready then some ("/video/" ++ video_id) else none }

/-- A JSON value, as produced by `json.load`. Numbers are modelled as
integers (the records this service writes only contain integers). -/
inductive JVal
  | jnull
  | jbool (b : Bool)
  | jnum (n : Int)
  | jstr (s : String)
  | jarr (elems : List JVal)
  | jobj (fields : List (String × JVal))

/-- Python truthiness of a parsed JSON value (`if not status:`). -/
def truthy : JVal → Bool
  | .jnull => false
  | .jbool b => b
  | .jnum n => !(n == 0)
  | .jstr s => !(s == "")
  | .jarr elems => !elems.isEmpty
  | .jobj fields => !fields.isEmpty

/-- The on-disk status file for one job id: absent, unreadable (open/read
raises), malformed (`json.load` raises), or a parsed JSON value. -/
inductive RawFile
  | unreadable
  | malformed
  | jsonVal (v : JVal)

/-- `get_status(video_id)`: returns `None` when the status file does not
exist, and also when reading or parsing it raises (the bare `except` returns
`None`); otherwise the parsed value. -/
def get_status (file : Option RawFile) : Option JVal :=
  match file with
  | none => none
  | some .unreadable => none
  | some .malformed => none
  | some (.jsonVal v) => some v

/-- `GET /video-status/{video_id}`: `status = get_status(...)`; `if not
status: raise HTTPException(404, "Video not found")`; else return it. -/
def get_video_status (file : Option RawFile) : Except (Nat × String) JVal :=
  match get_status file with
  | none => Except.error (404, "Video not found")
  | some v => if truthy v then Except.ok v else Except.error (404, "Video not found")

/-- An exception escaping the `try` block of the `get_video` handler:
either an `HTTPException(code, detail)` or a plain Python exception with its
`str` message. -/
inductive ExcVal
  | http (code : Nat) (detail : String)
  | py (msg : String)

/-- Python `str()` of the exception: Starlette's `HTTPException.__str__` is
`f"{status_code}: {detail}"`. -/
def strOfExc : ExcVal → String
  | .http code detail => toString code ++ ": " ++ detail
  | .py msg => msg

/-- A successful response of the `get_video` handler. -/
inductive GetVideoResp
  | fileResponse (path : String) (mediaType : String) (filename : String)
  | jsonGenerating (status : String) (message : String)

/-- Python's `status["status"]` on a parsed JSON value: a key error or a
type error when the value is not an object with that key. -/
def subscriptStatus : JVal → Except ExcVal JVal
  | .jobj fields =>
      match fields.lookup "status" with
      | some v => Except.ok v
      | none => Except.error (.py "'status'")
  | .jarr _ => Except.error (.py "list indices must be integers or slices, not str")
  | _ => Except.error (.py "object is not subscriptable")

/-- Is the looked-up value the string `"generating"`? (Python `==` against a
string literal is `False` for every non-string value, raising nothing.) -/
def isGeneratingVal : JVal → Bool
  | .jstr s => s == "generating"
  | _ => false

/-- The body of the `try` block of `GET /video/{video_id}` in
`api_standalone.py`: serve the file if it exists and is readable (a read
error raises `HTTPException(500, ...)`); otherwise consult the status file
and return the generating JSON body when `status and status["status"] ==
"generating"`; otherwise `raise HTTPException(404, "Video file not found")`.
`fileExists` is `video_path.exists()`, `readErr` the message of a read
failure if any, `statusFile` the job's status file. -/
def get_video_try (video_id : String) (fileExists : Bool) (readErr : Option String)
    (statusFile : Option RawFile) : Except ExcVal GetVideoResp :=
  if fileExists then
    match readErr with
    | some e => Except.error (.http 500 ("Error reading video file: " ++ e))
    | none =>
        Except.ok (.fileResponse ("/data/videos/video_" ++ video_id ++ ".mp4")
          "video/mp4" ("video_" ++ video_id ++ ".mp4"))
  else
    match get_status statusFile with
    | some v =>
        if truthy v then
          match subscriptStatus v with
          | Except.ok sv =>
              if isGeneratingVal sv then
                Except.ok (.jsonGenerating "generating" "Video is still being generated")
              else Except.error (.http 404 "Video file not found")
          | Except.error e => Except.error e
        else Except.error (.http 404 "Video file not found")
    | none => Except.error (.http 404 "Video file not found")

/-- `GET /video/{video_id}`: the whole `try` body is wrapped in
`except Exception as e: raise HTTPException(500, str(e))`. `HTTPException`
is an `Exception` subclass, so the handler's own `HTTPException(404, ...)`
is also caught and re-raised as a 500 whose detail is `str` of the 404. -/
def get_video (video_id : String) (fileExists : Bool) (readErr : Option String)
    (statusFile : Option RawFile) : Except (Nat × String) GetVideoResp :=
  match get_video_try video_id fileExists readErr statusFile with
  | Except.ok r => Except.ok r
  | Except.error e => Except.error (500, strOfExc e)

/-! ## The job runner: `generate_video_async` / `generate_simple_video` -/

/-- The observables of the opaque Render Backend for one job run:
whether `video_<id>.mp4` exists after the write attempts, its size in bytes,
and the `str` of a backend exception should one be raised. -/
structure RenderEnv where
  fileExists : Bool
  fileSize : Nat
  failMsg : String
deriving DecidableEq

/-- The coarse progress checkpoints written by `generate_simple_video`,
in program order (lines 144, 148, 157, 162, 167, 173). -/
def checkpoints : List Int := [25, 35, 50, 65, 80, 85]

/-- The checkpoint writes of `generate_simple_video` for one job: each is a
`generating` record with no error. -/
def checkpointWrites (video_id : String) : List StatusRecord :=
  checkpoints.map (fun p => update_progress video_id p JobStatus.generating none)

/-- `str` of the exception raised when the artifact file is missing after
the write attempts: `Video file was not created at {video_path}`. -/
def notCreatedMsg (video_id : String) : String :=
  "Video file was not created at /data/videos/video_" ++ video_id ++ ".mp4"

/-- `str` of the exception raised when the artifact is under 1000 bytes:
`Video file too small ({file_size} bytes), likely corrupted`. -/
def tooSmallMsg (size : Nat) : String :=
  "Video file too small (" ++ toString size ++ " bytes), likely corrupted"

/-- The possible runs of `generate_simple_video(video_id, request)` in the
worker thread, as the list of status records it writes, paired with the
outcome: `none` when it returns normally, `some e` when it re-raises an
exception whose `str` is `e` (after writing the `failed` record in its own
`except` block).

Fallible operations sit after checkpoints 35, 50, 65, 80 and 85 and before
checkpoint 25 (the `moviepy`/`numpy` import); nothing between the 25 and 35
writes can raise, so a backend failure leaves a written prefix
`checkpoints.take i` with `i ≤ 6` and `i ≠ 1`. After checkpoint 85 the
write attempts run; if the file then does not exist, or is smaller than
1000 bytes, the function raises its own exception; otherwise it writes
`ready` with progress 100. Status-file writes themselves are assumed to
succeed. -/
inductive ThreadRun (video_id : String) (env : RenderEnv) :
    List StatusRecord → Option String → Prop
  | success :
      env.fileExists = true → 1000 ≤ env.fileSize →
      ThreadRun video_id env
        (checkpointWrites video_id ++ [update_progress video_id 100 JobStatus.ready none])
        none
  | backendFail (i : Nat) :
      i ≤ 6 → i ≠ 1 →
      ThreadRun video_id env
        ((checkpointWrites video_id).take i ++
          [update_progress video_id 0 JobStatus.failed (some env.failMsg)])
        (some env.failMsg)
  | notCreated :
      env.fileExists = false →
      ThreadRun video_id env
        (checkpointWrites video_id ++
          [update_progress video_id 0 JobStatus.failed (some (notCreatedMsg video_id))])
        (some (notCreatedMsg video_id))
  | tooSmall :
      env.fileExists = true → env.fileSize < 1000 →
      ThreadRun video_id env
        (checkpointWrites video_id ++
          [update_progress video_id 0 JobStatus.failed (some (tooSmallMsg env.fileSize))])
        (some (tooSmallMsg env.fileSize))

/-- `Shuffle xs ys zs`: `zs` is an interleaving of `xs` and `ys` that keeps
the internal order of each. Used for the writes of the still-running worker
thread racing the event-loop writes after a timeout. -/
inductive Shuffle : List StatusRecord → List StatusRecord → List StatusRecord → Prop
  | nil : Shuffle [] [] []
  | left {x xs ys zs} : Shuffle xs ys zs → Shuffle (x :: xs) ys (x :: zs)
  | right {y xs ys zs} : Shuffle xs ys zs → Shuffle xs (y :: ys) (y :: zs)

/-- The first `failed` write of the timeout branch:
`update_progress(video_id, 0, "failed", "Video generation timed out")`. -/
def timeoutWrite (video_id : String) : StatusRecord :=
  update_progress video_id 0 JobStatus.failed (some "Video generation timed out")

/-- The second `failed` write of the timeout branch: the raised
`HTTPException(500, "Video generation timed out")` is caught by the outer
`except Exception`, which writes `failed` again with `str(e)` =
`"500: Video generation timed out"`. -/
def timeoutWrite2 (video_id : String) : StatusRecord :=
  update_progress video_id 0 JobStatus.failed (some "500: Video generation timed out")

/-- The possible complete write sequences of `generate_video_async(video_id,
request)` for one job, indexed by whether `asyncio.wait_for` timed out.

* It first writes `update_progress(video_id, 0)` — a `generating` record
  with progress 0 (the default status), not a `queued` record.
* Without a timeout it awaits the thread; if the thread raised, the outer
  `except` writes `failed` once more with the same message.
* On a timeout it writes the two timeout `failed` records, but
  `run_in_executor` does not cancel the thread, which keeps running and
  keeps writing: the two timeout writes interleave arbitrarily with the
  thread's remaining writes (modelled as any order-preserving shuffle). -/
inductive JobTrace (video_id : String) (env : RenderEnv) :
    Bool → List StatusRecord → Prop
  | ok (t : List StatusRecord) :
      ThreadRun video_id env t none →
      JobTrace video_id env false
        (update_progress video_id 0 JobStatus.generating none :: t)
  | panicked (t : List StatusRecord) (e : String) :
      ThreadRun video_id env t (some e) →
      JobTrace video_id env false
        (update_progress video_id 0 JobStatus.generating none ::
          (t ++ [update_progress video_id 0 JobStatus.failed (some e)]))
  | timedOut (t sh : List StatusRecord) (o : Option String) :
      ThreadRun video_id env t o →
      Shuffle t [timeoutWrite video_id, timeoutWrite2 video_id] sh →
      JobTrace video_id env true
        (update_progress video_id 0 JobStatus.generating none :: sh)

/-! ## The submission endpoint `POST /generate-video` -/

/-- The request body of `POST /generate-video` (`VideoRequest`). The
standalone handler only threads it through to the background task. -/
structure VideoRequest where
  subreddit : String
  isCliffhanger : Bool
  voice : List (String × JVal)
  background : List (String × JVal)
  customStory : Option (List (String × JVal))

/-- The response model of `POST /generate-video` (`VideoResponse`). -/
structure VideoResponse where
  success : Bool
  videoId : String
  videoUrl : Option String
  error : Option String
deriving DecidableEq

/-- The `generate_video` handler of `api_standalone.py`: allocates a fresh
`video_id` (modelled as a parameter), fire-and-forget schedules
`generate_video_async(video_id, request)` via `asyncio.create_task` — the
spawned task is the only consumer of `request` and of the render backend
`env` — and returns the response built from `video_id` alone, without
awaiting any of the background work. -/
def generate_video (video_id : String) (request : VideoRequest) (env : RenderEnv) :
    VideoResponse :=
  { success := true
    videoId := video_id
    videoUrl := some ("/video/" ++ video_id)
    error := none }

/-! ## State-machine invariant checkers -/

/-- Position of a state along the lifecycle chain
`queued → generating → {ready, failed}`. -/
def rank : JobStatus → Nat
  | .queued => 0
  | .generating => 1
  | .ready => 2
  | .failed => 2

/-- Is the state terminal? -/
def terminal : JobStatus → Bool
  | .ready => true
  | .failed => true
  | _ => false

/-- One stored-state transition is forward: the rank never decreases, and a
terminal state is never left for a different state. -/
def stepOk (a b : JobStatus) : Bool :=
  decide (rank a ≤ rank b) && (!terminal a || (a == b))

/-- Every adjacent pair of a status sequence is a forward transition. -/
def forwardStatuses : List JobStatus → Bool
  | a :: b :: t => stepOk a b && forwardStatuses (b :: t)
  | _ => true

/-- Every adjacent pair of written records is a forward state transition. -/
def forwardTrace (tr : List StatusRecord) : Bool :=
  forwardStatuses (tr.map (fun r => r.status))

/-- An integer sequence is monotonically non-decreasing. -/
def nondecreasingI : List Int → Bool
  | a :: b :: t => decide (a ≤ b) && nondecreasingI (b :: t)
  | _ => true

/-- The progress values written while the state is `generating`, in order. -/
def isGen : JobStatus → Bool
  | .generating => true
  | _ => false

def genProgress (tr : List StatusRecord) : List Int :=
  (tr.filter (fun r => isGen r.status)).map (fun r => r.progress)

/-- Every record any run of the job runner can write for `video_id` under
`env`: the initial generating record, the six checkpoints, the ready record,
the three thread failure records, the async rewrite of the thread failure
(same three messages), and the two timeout records. -/
def possibleWrites (video_id : String) (env : RenderEnv) : List StatusRecord :=
  update_progress video_id 0 JobStatus.generating none ::
    (checkpointWrites video_id ++
      [update_progress video_id 100 JobStatus.ready none,
       update_progress video_id 0 JobStatus.failed (some env.failMsg),
       update_progress video_id 0 JobStatus.failed (some (notCreatedMsg video_id)),
       update_progress video_id 0 JobStatus.failed (some (tooSmallMsg env.fileSize)),
       timeoutWrite video_id, timeoutWrite2 video_id])

/-! ## Helper lemmas -/

theorem shuffle_nil_right (t : List StatusRecord) : Shuffle t [] t := by
  induction t with
  | nil => exact Shuffle.nil
  | cons x xs ih => exact Shuffle.left ih

theorem shuffle_mem {t u sh : List StatusRecord} (h : Shuffle t u sh) :
    ∀ r ∈ sh, r ∈ t ∨ r ∈ u := by
  induction h with
  | nil => intro r hr; cases hr
  | left _ ih =>
      intro r hr
      rcases List.mem_cons.mp hr with h1 | h2
      · exact Or.inl (h1 ▸ List.mem_cons_self _ _)
      · rcases ih r h2 with h3 | h3
        · exact Or.inl (List.mem_cons_of_mem _ h3)
        · exact Or.inr h3
  | right _ ih =>
      intro r hr
      rcases List.mem_cons.mp hr with h1 | h2
      · exact Or.inr (h1 ▸ List.mem_cons_self _ _)
      · rcases ih r h2 with h3 | h3
        · exact Or.inl h3
        · exact Or.inr (List.mem_cons_of_mem _ h3)

theorem shuffle_mem_right {t u sh : List StatusRecord} (h : Shuffle t u sh) :
    ∀ r ∈ u, r ∈ sh := by
  induction h with
  | nil => intro r hr; cases hr
  | left _ ih => intro r hr; exact List.mem_cons_of_mem _ (ih r hr)
  | right _ ih =>
      intro r hr
      rcases List.mem_cons.mp hr with h1 | h2
      · exact h1 ▸ List.mem_cons_self _ _
      · exact List.mem_cons_of_mem _ (ih r h2)

theorem shuffle_filter {t u sh : List StatusRecord} (p : StatusRecord → Bool)
    (h : Shuffle t u sh) (hu : ∀ y ∈ u, p y = false) :
    sh.filter p = t.filter p := by
  induction h with
  | nil => rfl
  | left _ ih =>
      simp only [List.filter_cons]
      rw [ih hu]
  | right hs ih =>
      rename_i y xs ys zs
      have hy : p y = false := hu y (List.mem_cons_self _ _)
      have hys : ∀ z ∈ ys, p z = false := fun z hz => hu z (List.mem_cons_of_mem _ hz)
      simp only [List.filter_cons, hy]
      exact ih hys

/-- Every record a thread run writes is among `possibleWrites`, and its
raised message (if any) names one of the three failure records. -/
theorem threadRun_subset {video_id : String} {env : RenderEnv}
    {t : List StatusRecord} {o : Option String}
    (h : ThreadRun video_id env t o) :
    (∀ r ∈ t, r ∈ possibleWrites video_id env) ∧
      (∀ e, o = some e →
        update_progress video_id 0 JobStatus.failed (some e) ∈ possibleWrites video_id env) := by
  cases h with
  | success h1 h2 =>
      constructor
      · intro r hr
        rcases List.mem_append.mp hr with h3 | h3
        · exact List.mem_cons_of_mem _ (List.mem_append_left _ h3)
        · simp only [List.mem_singleton] at h3
          subst h3
          simp [possibleWrites]
      · intro e he; cases he
  | backendFail i h1 h2 =>
      constructor
      · intro r hr
        rcases List.mem_append.mp hr with h3 | h3
        · exact List.mem_cons_of_mem _ (List.mem_append_left _ (List.take_subset _ _ h3))
        · simp only [List.mem_singleton] at h3
          subst h3
          simp [possibleWrites]
      · intro e he
        injection he with he'
        subst he'
        simp [possibleWrites]
  | notCreated h1 =>
      constructor
      · intro r hr
        rcases List.mem_append.mp hr with h3 | h3
        · exact List.mem_cons_of_mem _ (List.mem_append_left _ h3)
        · simp only [List.mem_singleton] at h3
          subst h3
          simp [possibleWrites]
      · intro e he
        injection he with he'
        subst he'
        simp [possibleWrites]
  | tooSmall h1 h2 =>
      constructor
      · intro r hr
        rcases List.mem_append.mp hr with h3 | h3
        · exact List.mem_cons_of_mem _ (List.mem_append_left _ h3)
        · simp only [List.mem_singleton] at h3
          subst h3
          simp [possibleWrites]
      · intro e he
        injection he with he'
        subst he'
        simp [possibleWrites]

/-- Every record a complete job run writes is among `possibleWrites`. -/
theorem jobTrace_subset {video_id : String} {env : RenderEnv} {flag : Bool}
    {tr : List StatusRecord} (h : JobTrace video_id env flag tr) :
    ∀ r ∈ tr, r ∈ possibleWrites video_id env := by
  cases h with
  | ok t ht =>
      intro r hr
      rcases List.mem_cons.mp hr with h1 | h1
      · subst h1; simp [possibleWrites]
      · exact (threadRun_subset ht).1 r h1
  | panicked t e ht =>
      intro r hr
      rcases List.mem_cons.mp hr with h1 | h1
      · subst h1; simp [possibleWrites]
      · rcases List.mem_append.mp h1 with h2 | h2
        · exact (threadRun_subset ht).1 r h2
        · simp only [List.mem_singleton] at h2
          subst h2
          exact (threadRun_subset ht).2 e rfl
  | timedOut t sh o ht hsh =>
      intro r hr
      rcases List.mem_cons.mp hr with h1 | h1
      · subst h1; simp [possibleWrites]
      · rcases shuffle_mem hsh r h1 with h2 | h2
        · exact (threadRun_subset ht).1 r h2
        · rcases List.mem_cons.mp h2 with h3 | h3
          · subst h3; simp [possibleWrites]
          · simp only [List.mem_singleton] at h3
            subst h3
            simp [possibleWrites]

theorem str_append_ne_empty (s t : String) (h : s.length ≠ 0) : s ++ t ≠ "" := by
  intro hc
  have h2 := congrArg String.length hc
  rw [String.length_append] at h2
  have h3 : ("" : String).length = 0 := rfl
  omega

theorem notCreatedMsg_ne_empty (video_id : String) : notCreatedMsg video_id ≠ "" := by
  apply str_append_ne_empty
  rw [String.length_append]
  have h : 0 < ("Video file was not created at /data/videos/video_" : String).length := by
    decide
  omega

theorem tooSmallMsg_ne_empty (size : Nat) : tooSmallMsg size ≠ "" := by
  apply str_append_ne_empty
  rw [String.length_append]
  have h : 0 < ("Video file too small (" : String).length := by decide
  omega

/-- Pointwise facts about every record the runner can write: progress stays
within 0–100, `queued` never occurs, progress is 100 exactly on `ready`
records, `failed` records carry progress 0 and a set (and, when the backend
message is non-empty, non-empty) error message, and progress 0 occurs only
on `failed` records and the initial generating record. -/
theorem possibleWrites_spec (video_id : String) (env : RenderEnv) :
    ∀ r ∈ possibleWrites video_id env,
      (0 ≤ r.progress ∧ r.progress ≤ 100) ∧
      r.status ≠ JobStatus.queued ∧
      (r.status = JobStatus.ready ↔ r.progress = 100) ∧
      (r.status = JobStatus.failed →
        r.progress = 0 ∧ ∃ m, r.error = some m ∧ (env.failMsg ≠ "" → m ≠ "")) ∧
      (r.progress = 0 →
        r.status = JobStatus.failed ∨
          r = update_progress video_id 0 JobStatus.generating none) := by
  intro r hr
  simp only [possibleWrites, checkpointWrites, checkpoints, List.map, List.mem_cons,
    List.mem_append, List.mem_singleton, List.mem_nil_iff, or_false] at hr
  rcases hr with rfl |
    ((rfl | rfl | rfl | rfl | rfl | rfl) | (rfl | rfl | rfl | rfl | rfl | rfl))
  · exact ⟨by norm_num [update_progress] <;> decide, by simp [update_progress],
      by norm_num [update_progress] <;> decide, by simp [update_progress], fun _ => Or.inr rfl⟩
  · exact ⟨by norm_num [update_progress] <;> decide, by simp [update_progress],
      by norm_num [update_progress] <;> decide, by simp [update_progress], by norm_num [update_progress]⟩
  · exact ⟨by norm_num [update_progress] <;> decide, by simp [update_progress],
      by norm_num [update_progress] <;> decide, by simp [update_progress], by norm_num [update_progress]⟩
  · exact ⟨by norm_num [update_progress] <;> decide, by simp [update_progress],
      by norm_num [update_progress] <;> decide, by simp [update_progress], by norm_num [update_progress]⟩
  · exact ⟨by norm_num [update_progress] <;> decide, by simp [update_progress],
      by norm_num [update_progress] <;> decide, by simp [update_progress], by norm_num [update_progress]⟩
  · exact ⟨by norm_num [update_progress] <;> decide, by simp [update_progress],
      by norm_num [update_progress] <;> decide, by simp [update_progress], by norm_num [update_progress]⟩
  · exact ⟨by norm_num [update_progress] <;> decide, by simp [update_progress],
      by norm_num [update_progress] <;> decide, by simp [update_progress], by norm_num [update_progress]⟩
  · exact ⟨by norm_num [update_progress] <;> decide, by simp [update_progress],
      by norm_num [update_progress] <;> decide, by simp [update_progress], by norm_num [update_progress]⟩
  · exact ⟨by norm_num [update_progress] <;> decide, by simp [update_progress],
      by norm_num [update_progress] <;> decide,
      fun _ => ⟨rfl, env.failMsg, rfl, fun h => h⟩, fun _ => Or.inl rfl⟩
  · exact ⟨by norm_num [update_progress] <;> decide, by simp [update_progress],
      by norm_num [update_progress] <;> decide,
      fun _ => ⟨rfl, notCreatedMsg video_id, rfl, fun _ => notCreatedMsg_ne_empty video_id⟩,
      fun _ => Or.inl rfl⟩
  · exact ⟨by norm_num [update_progress] <;> decide, by simp [update_progress],
      by norm_num [update_progress] <;> decide,
      fun _ => ⟨rfl, tooSmallMsg env.fileSize, rfl, fun _ => tooSmallMsg_ne_empty env.fileSize⟩,
      fun _ => Or.inl rfl⟩
  · exact ⟨by norm_num [timeoutWrite, update_progress] <;> decide, by simp [timeoutWrite, update_progress],
      by norm_num [timeoutWrite, update_progress] <;> decide,
      fun _ => ⟨rfl, "Video generation timed out", rfl, fun _ => by decide⟩,
      fun _ => Or.inl rfl⟩
  · exact ⟨by norm_num [timeoutWrite2, update_progress] <;> decide, by simp [timeoutWrite2, update_progress],
      by norm_num [timeoutWrite2, update_progress] <;> decide,
      fun _ => ⟨rfl, "500: Video generation timed out", rfl, fun _ => by decide⟩,
      fun _ => Or.inl rfl⟩

theorem mem_checkpointWrites_status {video_id : String} {r : StatusRecord}
    (h : r ∈ checkpointWrites video_id) : r.status = JobStatus.generating := by
  simp only [checkpointWrites, checkpoints, List.map, List.mem_cons,
    List.mem_singleton, List.mem_nil_iff, or_false] at h
  rcases h with rfl | rfl | rfl | rfl | rfl | rfl
  all_goals rfl

/-- A thread run that writes a `ready` record passed the artifact checks:
the file existed and held at least 1000 bytes. -/
theorem threadRun_ready {video_id : String} {env : RenderEnv}
    {t : List StatusRecord} {o : Option String} (h : ThreadRun video_id env t o)
    {r : StatusRecord} (hr : r ∈ t) (hst : r.status = JobStatus.ready) :
    env.fileExists = true ∧ 1000 ≤ env.fileSize := by
  cases h with
  | success h1 h2 => exact ⟨h1, h2⟩
  | backendFail i h1 h2 =>
      exfalso
      rcases List.mem_append.mp hr with h3 | h3
      · rw [mem_checkpointWrites_status (List.take_subset _ _ h3)] at hst
        cases hst
      · simp only [List.mem_singleton] at h3
        subst h3
        cases hst
  | notCreated h1 =>
      exfalso
      rcases List.mem_append.mp hr with h3 | h3
      · rw [mem_checkpointWrites_status h3] at hst
        cases hst
      · simp only [List.mem_singleton] at h3
        subst h3
        cases hst
  | tooSmall h1 h2 =>
      exfalso
      rcases List.mem_append.mp hr with h3 | h3
      · rw [mem_checkpointWrites_status h3] at hst
        cases hst
      · simp only [List.mem_singleton] at h3
        subst h3
        cases hst

/-- A job run that writes a `ready` record passed the artifact checks. -/
theorem jobTrace_ready {video_id : String} {env : RenderEnv} {flag : Bool}
    {tr : List StatusRecord} (h : JobTrace video_id env flag tr)
    {r : StatusRecord} (hr : r ∈ tr) (hst : r.status = JobStatus.ready) :
    env.fileExists = true ∧ 1000 ≤ env.fileSize := by
  cases h with
  | ok t ht =>
      rcases List.mem_cons.mp hr with h1 | h1
      · subst h1; cases hst
      · exact threadRun_ready ht h1 hst
  | panicked t e ht =>
      rcases List.mem_cons.mp hr with h1 | h1
      · subst h1; cases hst
      · rcases List.mem_append.mp h1 with h2 | h2
        · exact threadRun_ready ht h2 hst
        · simp only [List.mem_singleton] at h2
          subst h2
          cases hst
  | timedOut t sh o ht hsh =>
      rcases List.mem_cons.mp hr with h1 | h1
      · subst h1; cases hst
      · rcases shuffle_mem hsh r h1 with h2 | h2
        · exact threadRun_ready ht h2 hst
        · rcases List.mem_cons.mp h2 with h3 | h3
          · subst h3; cases hst
          · simp only [List.mem_singleton] at h3
            subst h3
            cases hst

/-- A render environment whose artifact checks pass. -/
def envOk : RenderEnv :=
  { fileExists := true, fileSize := 5000, failMsg := "boom" }

/-- The write sequence of an untroubled successful run. -/
def okTrace (video_id : String) : List StatusRecord :=
  update_progress video_id 0 JobStatus.generating none ::
    (checkpointWrites video_id ++ [update_progress video_id 100 JobStatus.ready none])

theorem jobTrace_okTrace (video_id : String) :
    JobTrace video_id envOk false (okTrace video_id) :=
  JobTrace.ok _ (ThreadRun.success rfl (by decide))

/-- A write sequence the code can produce when the 5-minute timeout fires
while the worker thread is slow but still alive: the event loop records the
two timeout failures, after which the surviving thread writes all its
checkpoints and finishes the job as `ready`. -/
def raceTrace (video_id : String) : List StatusRecord :=
  update_progress video_id 0 JobStatus.generating none ::
    timeoutWrite video_id :: timeoutWrite2 video_id ::
      (checkpointWrites video_id ++ [update_progress video_id 100 JobStatus.ready none])

theorem jobTrace_raceTrace (video_id : String) :
    JobTrace video_id envOk true (raceTrace video_id) := by
  show JobTrace video_id envOk true
    (update_progress video_id 0 JobStatus.generating none ::
      (timeoutWrite video_id :: timeoutWrite2 video_id ::
        (checkpointWrites video_id ++ [update_progress video_id 100 JobStatus.ready none])))
  exact JobTrace.timedOut _ _ none (ThreadRun.success rfl (by decide))
    (Shuffle.right (Shuffle.right (shuffle_nil_right _)))

/-- The generating-progress sequence of any thread run, prefixed with the
initial 0, is non-decreasing. -/
theorem threadRun_nondec {video_id : String} {env : RenderEnv}
    {t : List StatusRecord} {o : Option String} (ht : ThreadRun video_id env t o) :
    nondecreasingI (0 :: (t.filter (fun r => isGen r.status)).map (fun r => r.progress)) =
      true := by
  cases ht with
  | success h1 h2 =>
      simp only [checkpointWrites, checkpoints, List.map, List.filter_append,
        List.filter_cons, List.filter_nil, update_progress, isGen, List.map_append]
      decide
  | backendFail i hi hne =>
      interval_cases i
      all_goals
        simp only [checkpointWrites, checkpoints, List.map, List.take,
          List.filter_append, List.filter_cons, List.filter_nil, update_progress,
          isGen, List.map_append]
      all_goals decide
  | notCreated h1 =>
      simp only [checkpointWrites, checkpoints, List.map, List.filter_append,
        List.filter_cons, List.filter_nil, update_progress, isGen, List.map_append]
      decide
  | tooSmall h1 h2 =>
      simp only [checkpointWrites, checkpoints, List.map, List.filter_append,
        List.filter_cons, List.filter_nil, update_progress, isGen, List.map_append]
      decide

/-- The progress values written with state `generating` form a
non-decreasing sequence in every complete job run, including runs in which
the timeout races the surviving thread (the racing writes are all `failed`
and do not enter the generating sequence). -/
theorem jobTrace_genProgress_nondec {video_id : String} {env : RenderEnv}
    {flag : Bool} {tr : List StatusRecord} (h : JobTrace video_id env flag tr) :
    nondecreasingI (genProgress tr) = true := by
  cases h with
  | ok t ht =>
      have h2 := threadRun_nondec ht
      simpa [genProgress, List.filter_cons, update_progress, isGen] using h2
  | panicked t e ht =>
      have h2 := threadRun_nondec ht
      simpa [genProgress, List.filter_cons, List.filter_append, update_progress,
        isGen] using h2
  | timedOut t sh o ht hsh =>
      have h3 : ∀ y ∈ [timeoutWrite video_id, timeoutWrite2 video_id],
          (fun r => isGen r.status) y = false := by
        intro y hy
        rcases List.mem_cons.mp hy with rfl | hy2
        · rfl
        · simp only [List.mem_singleton] at hy2
          subst hy2
          rfl
      have h4 := shuffle_filter (fun r => isGen r.status) hsh h3
      have h2 := threadRun_nondec ht
      have h5 : genProgress (update_progress video_id 0 JobStatus.generating none :: sh) =
          0 :: (sh.filter (fun r => isGen r.status)).map (fun r => r.progress) := by
        simp [genProgress, List.filter_cons, update_progress, isGen]
      rw [h5, h4]
      exact h2

/-- A render environment in which the artifact never appears. -/
def envBad : RenderEnv :=
  { fileExists := false, fileSize := 0, failMsg := "render exploded" }

/-- The write sequence of a run whose artifact file never appears: the
thread writes `failed` in its own handler and the async wrapper writes the
same failure again. -/
def failTrace (video_id : String) : List StatusRecord :=
  update_progress video_id 0 JobStatus.generating none ::
    ((checkpointWrites video_id ++
        [update_progress video_id 0 JobStatus.failed (some (notCreatedMsg video_id))]) ++
      [update_progress video_id 0 JobStatus.failed (some (notCreatedMsg video_id))])

theorem jobTrace_failTrace (video_id : String) :
    JobTrace video_id envBad false (failTrace video_id) :=
  JobTrace.panicked _ _ (ThreadRun.notCreated rfl)

/-- A sample request body. -/
def reqSample : VideoRequest :=
  { subreddit := "AskReddit"
    isCliffhanger := false
    voice := [("gender", JVal.jstr "male")]
    background := []
    customStory := none }

/-! ## Claims -/

/-- C1 (counterexample): the state machine is not terminal on the code as a
whole. When the 5-minute timeout fires while the worker thread is still
alive, the event loop writes `failed` but the uncancelled thread keeps
writing: the concrete trace below is producible and moves
`failed → generating → … → ready`. -/
theorem C1_counterexample :
    JobTrace "job" envOk true (raceTrace "job") ∧
      forwardTrace (raceTrace "job") = false :=
  ⟨jobTrace_raceTrace "job", by decide⟩

/-- C1 (amended): in every execution in which the 5-minute timeout does not
fire, the stored state only moves forward along
`queued → generating → {ready, failed}` and `ready`/`failed` are terminal
(no later write changes them). -/
theorem C1_forward_and_terminal (video_id : String) (env : RenderEnv)
    (tr : List StatusRecord) (h : JobTrace video_id env false tr) :
    forwardTrace tr = true := by
  cases h with
  | ok t ht =>
      cases ht with
      | success h1 h2 =>
          simp only [forwardTrace, checkpointWrites, checkpoints, List.map,
            List.map_append, update_progress]
          decide
  | panicked t e ht =>
      cases ht with
      | backendFail i hi hne =>
          interval_cases i
          all_goals try exact absurd rfl hne
          all_goals
            simp only [forwardTrace, checkpointWrites, checkpoints, List.map, List.take,
              List.map_append, update_progress]
          all_goals decide
      | notCreated h1 =>
          simp only [forwardTrace, checkpointWrites, checkpoints, List.map,
            List.map_append, update_progress]
          decide
      | tooSmall h1 h2 =>
          simp only [forwardTrace, checkpointWrites, checkpoints, List.map,
            List.map_append, update_progress]
          decide

theorem C1_witness : forwardTrace (okTrace "w1") = true :=
  C1_forward_and_terminal "w1" envOk (okTrace "w1") (jobTrace_okTrace "w1")

/-- C2 (counterexample): the first record written for an accepted submission
has state `generating` (the default status of `update_progress`), not
`queued`: the concrete producible trace below starts with a `generating`
record. -/
theorem C2_counterexample :
    JobTrace "job2" envOk false (okTrace "job2") ∧
      (okTrace "job2").head?.map (fun r => r.status) = some JobStatus.generating ∧
      JobStatus.generating ≠ JobStatus.queued :=
  ⟨jobTrace_okTrace "job2", rfl, by decide⟩

/-- C2 (amended): for every accepted submission, the first record written
for the new job id is the `generating` record with progress 0 (written by
the background task before any render work runs); no record with state
`queued` is ever written. -/
theorem C2_first_write_generating (video_id : String) (env : RenderEnv) (flag : Bool)
    (tr : List StatusRecord) (h : JobTrace video_id env flag tr) :
    tr.head? = some (update_progress video_id 0 JobStatus.generating none) ∧
      ∀ r ∈ tr, r.status ≠ JobStatus.queued := by
  constructor
  · cases h <;> rfl
  · intro r hr
    exact (possibleWrites_spec video_id env r (jobTrace_subset h r hr)).2.1

theorem C2_witness :
    (okTrace "w2").head? = some (update_progress "w2" 0 JobStatus.generating none) ∧
      (update_progress "w2" 100 JobStatus.ready none).status ≠ JobStatus.queued :=
  ⟨(C2_first_write_generating "w2" envOk false (okTrace "w2") (jobTrace_okTrace "w2")).1,
    (C2_first_write_generating "w2" envOk false (okTrace "w2") (jobTrace_okTrace "w2")).2
      (update_progress "w2" 100 JobStatus.ready none) (by decide)⟩

/-- C3 (code bug): `GET /video/{id}` serves the file when it exists and
returns the generating JSON body when the file is absent but the stored
status is `generating`; but in the remaining case it responds 500, not 404:
the handler's own `raise HTTPException(404, "Video file not found")` is
swallowed by the enclosing `except Exception` and re-raised as
`HTTPException(500, str(e))` with detail `"404: Video file not found"`. -/
theorem C3_get_video_500_wraps_404 :
    get_video "vid" true none none =
      Except.ok (GetVideoResp.fileResponse "/data/videos/video_vid.mp4" "video/mp4"
        "video_vid.mp4") ∧
    get_video "vid" false none
        (some (RawFile.jsonVal (JVal.jobj
          [("status", JVal.jstr "generating"), ("progress", JVal.jnum 25)]))) =
      Except.ok (GetVideoResp.jsonGenerating "generating"
        "Video is still being generated") ∧
    get_video "vid" false none none = Except.error (500, "404: Video file not found") ∧
    (500 : Nat) ≠ 404 :=
  ⟨rfl, rfl, rfl, by decide⟩

/-- C4: whenever the render step exceeds the 5-minute `asyncio.wait_for`
bound, a record with state `failed`, progress 0 and an error message
containing "timed out" is written for the job, while the submission
response already sent to the HTTP caller is unaffected (the failure is
observable only by polling). -/
theorem C4_timeout_failed_record (video_id : String) (env : RenderEnv)
    (tr : List StatusRecord) (req : VideoRequest)
    (h : JobTrace video_id env true tr) :
    (∃ r ∈ tr, r.status = JobStatus.failed ∧ r.progress = 0 ∧
      ∃ m, r.error = some m ∧ "timed out".data <:+: m.data) ∧
    generate_video video_id req env =
      { success := true, videoId := video_id,
        videoUrl := some ("/video/" ++ video_id), error := none } := by
  refine ⟨?_, rfl⟩
  cases h with
  | timedOut t sh o ht hsh =>
      refine ⟨timeoutWrite video_id,
        List.mem_cons_of_mem _
          (shuffle_mem_right hsh _ (List.mem_cons_self _ _)), rfl, rfl,
        "Video generation timed out", rfl, ?_⟩
      decide

theorem C4_witness :
    (∃ r ∈ raceTrace "w4", r.status = JobStatus.failed ∧ r.progress = 0 ∧
      ∃ m, r.error = some m ∧ "timed out".data <:+: m.data) ∧
    generate_video "w4" reqSample envOk =
      { success := true, videoId := "w4",
        videoUrl := some ("/video/" ++ "w4"), error := none } :=
  C4_timeout_failed_record "w4" envOk (raceTrace "w4") reqSample (jobTrace_raceTrace "w4")

/-- C5: every record written with state `failed` has progress 0 and a set
error message, non-empty provided the backend exception's message is
non-empty (the service's own failure messages are non-empty constants);
the failure is recorded by the worker while the submission response to the
HTTP caller is the fixed success response, independent of the outcome. -/
theorem C5_failed_records (video_id : String) (env : RenderEnv) (flag : Bool)
    (tr : List StatusRecord) (req : VideoRequest)
    (h : JobTrace video_id env flag tr) (hm : env.failMsg ≠ "") :
    (∀ r ∈ tr, r.status = JobStatus.failed →
      r.progress = 0 ∧ ∃ m, r.error = some m ∧ m ≠ "") ∧
    generate_video video_id req env =
      { success := true, videoId := video_id,
        videoUrl := some ("/video/" ++ video_id), error := none } := by
  refine ⟨fun r hr hst => ?_, rfl⟩
  obtain ⟨h1, m, h2, h3⟩ :=
    (possibleWrites_spec video_id env r (jobTrace_subset h r hr)).2.2.2.1 hst
  exact ⟨h1, m, h2, h3 hm⟩

theorem C5_witness :
    ((update_progress "w5" 0 JobStatus.failed (some (notCreatedMsg "w5"))).progress = 0 ∧
      ∃ m, (update_progress "w5" 0 JobStatus.failed (some (notCreatedMsg "w5"))).error =
        some m ∧ m ≠ "") ∧
    generate_video "w5" reqSample envBad =
      { success := true, videoId := "w5",
        videoUrl := some ("/video/" ++ "w5"), error := none } :=
  ⟨(C5_failed_records "w5" envBad false (failTrace "w5") reqSample
      (jobTrace_failTrace "w5") (by decide)).1
      (update_progress "w5" 0 JobStatus.failed (some (notCreatedMsg "w5")))
      (by decide) rfl,
    (C5_failed_records "w5" envBad false (failTrace "w5") reqSample
      (jobTrace_failTrace "w5") (by decide)).2⟩

/-- C6: every record written with state `ready` has progress 100, and it is
only written after the checks that the artifact file `video_<id>.mp4`
exists and holds at least 1000 bytes have passed. -/
theorem C6_ready_implies_artifact (video_id : String) (env : RenderEnv)
    (flag : Bool) (tr : List StatusRecord) (h : JobTrace video_id env flag tr) :
    ∀ r ∈ tr, r.status = JobStatus.ready →
      r.progress = 100 ∧ env.fileExists = true ∧ 1000 ≤ env.fileSize := by
  intro r hr hst
  refine ⟨?_, jobTrace_ready h hr hst⟩
  exact (possibleWrites_spec video_id env r (jobTrace_subset h r hr)).2.2.1.mp hst

theorem C6_witness :
    (update_progress "w6" 100 JobStatus.ready none).progress = 100 ∧
      envOk.fileExists = true ∧ 1000 ≤ envOk.fileSize :=
  C6_ready_implies_artifact "w6" envOk false (okTrace "w6") (jobTrace_okTrace "w6")
    (update_progress "w6" 100 JobStatus.ready none) (by decide) rfl

/-- C7: in every complete job run, the progress values written while the
state is `generating` form a non-decreasing integer sequence; every written
progress lies in 0–100; `failed` records carry progress 0 and `ready`
records exactly the records with progress 100; progress 0 occurs only on
`failed` records and the initial generating record. -/
theorem C7_progress_monotone (video_id : String) (env : RenderEnv) (flag : Bool)
    (tr : List StatusRecord) (h : JobTrace video_id env flag tr) :
    nondecreasingI (genProgress tr) = true ∧
    ∀ r ∈ tr,
      (0 ≤ r.progress ∧ r.progress ≤ 100) ∧
      (r.status = JobStatus.failed → r.progress = 0) ∧
      (r.status = JobStatus.ready ↔ r.progress = 100) ∧
      (r.progress = 0 → r.status = JobStatus.failed ∨
        r = update_progress video_id 0 JobStatus.generating none) := by
  refine ⟨jobTrace_genProgress_nondec h, fun r hr => ?_⟩
  obtain ⟨h1, h2, h3, h4, h5⟩ := possibleWrites_spec video_id env r (jobTrace_subset h r hr)
  exact ⟨h1, fun hst => ((h4 hst).1), h3, h5⟩

theorem C7_witness :
    nondecreasingI (genProgress (okTrace "w7")) = true ∧
    (0 ≤ (update_progress "w7" 100 JobStatus.ready none).progress ∧
      (update_progress "w7" 100 JobStatus.ready none).progress ≤ 100) ∧
    ((update_progress "w7" 100 JobStatus.ready none).status = JobStatus.ready ↔
      (update_progress "w7" 100 JobStatus.ready none).progress = 100) :=
  ⟨(C7_progress_monotone "w7" envOk false (okTrace "w7") (jobTrace_okTrace "w7")).1,
    ((C7_progress_monotone "w7" envOk false (okTrace "w7") (jobTrace_okTrace "w7")).2
      (update_progress "w7" 100 JobStatus.ready none) (by decide)).1,
    ((C7_progress_monotone "w7" envOk false (okTrace "w7") (jobTrace_okTrace "w7")).2
      (update_progress "w7" 100 JobStatus.ready none) (by decide)).2.2.1⟩

/-- C8: the submission handler returns the fixed success response built from
the fresh job id alone: the response is identical whatever the render
backend later does (success, failure, timeout, a saturated pool), so the
caller never waits on render completion and observes it only by polling. -/
theorem C8_submit_response_independent (video_id : String) (req : VideoRequest)
    (env1 env2 : RenderEnv) (flag1 flag2 : Bool) (tr1 tr2 : List StatusRecord)
    (h1 : JobTrace video_id env1 flag1 tr1) (h2 : JobTrace video_id env2 flag2 tr2) :
    generate_video video_id req env1 = generate_video video_id req env2 ∧
    generate_video video_id req env1 =
      { success := true, videoId := video_id,
        videoUrl := some ("/video/" ++ video_id), error := none } :=
  ⟨rfl, rfl⟩

theorem C8_witness :
    generate_video "w8" reqSample envOk = generate_video "w8" reqSample envBad ∧
    generate_video "w8" reqSample envOk =
      { success := true, videoId := "w8",
        videoUrl := some ("/video/" ++ "w8"), error := none } :=
  C8_submit_response_independent "w8" reqSample envOk envBad false false
    (okTrace "w8") (failTrace "w8") (jobTrace_okTrace "w8") (jobTrace_failTrace "w8")

/-- C9: `GET /video-status/{id}` on an id with no stored record responds
404 "Video not found" and never returns a record. -/
theorem C9_status_unknown_404 (store : String → Option RawFile) (video_id : String)
    (h : store video_id = none) :
    get_video_status (store video_id) = Except.error (404, "Video not found") ∧
      ∀ v, get_video_status (store video_id) ≠ Except.ok v := by
  rw [h]
  exact ⟨rfl, fun v hc => by cases hc⟩

theorem C9_witness :
    get_video_status ((fun _ => none : String → Option RawFile) "unknown") =
        Except.error (404, "Video not found") ∧
      get_video_status ((fun _ => none : String → Option RawFile) "unknown") ≠
        Except.ok JVal.jnull :=
  ⟨(C9_status_unknown_404 (fun _ => none) "unknown" rfl).1,
    (C9_status_unknown_404 (fun _ => none) "unknown" rfl).2 JVal.jnull⟩

/-- C10: `GET /video-status/{id}` responds 404 "Video not found" not only
when no status file exists, but also when the file cannot be read, cannot
be parsed as JSON, or parses to a falsy value — all four cases produce the
identical response, so the caller cannot distinguish them. -/
theorem C10_status_corrupt_404 (store : String → Option RawFile) (video_id : String)
    (h : store video_id = none ∨ store video_id = some RawFile.unreadable ∨
      store video_id = some RawFile.malformed ∨
      ∃ v, store video_id = some (RawFile.jsonVal v) ∧ truthy v = false) :
    get_video_status (store video_id) = Except.error (404, "Video not found") := by
  rcases h with h | h | h | ⟨v, h, hv⟩
  · rw [h]; rfl
  · rw [h]; rfl
  · rw [h]; rfl
  · rw [h]
    simp [get_video_status, get_status, hv]

theorem C10_witness :
    get_video_status ((fun _ => some RawFile.malformed : String → Option RawFile) "bad") =
      Except.error (404, "Video not found") :=
  C10_status_corrupt_404 (fun _ => some RawFile.malformed) "bad"
    (Or.inr (Or.inr (Or.inl rfl)))

end AdhdStoryGen
